import Mathlib

/-!
Verification of the persona-generation core of the `pep-be` repository.

The development shallowly embeds the Python functions that the claims are
about:

* `normalize_persona_to_nested` from `src/app/utils/persona_normalizer.py`
* `strict_deep_merge` and the expansion flow of `expand_persona` from
  `src/backend/app/services/persona_service.py`
* `_calculate_rqe` and the iteration loop of `generate_persona_set_iterative`
  and the candidate extraction of `_generate_personas` from
  `src/backend/app/services/iterative_generation_service.py`
* `validate_persona_attributes` from
  `src/backend/app/services/analytics_service.py`

JSON-like Python values are modelled by the inductive type `JSON`; Python
dicts are association lists in insertion order (Python 3.7+ dicts preserve
insertion order; dict equality ignores order, which `pyEq` models).
Numeric scores use `ℚ` in place of Python floats.  External collaborators
(the LLM, the embedding backend and the vector store) are opaque function
parameters, exactly as the specification treats them.
-/

set_option autoImplicit false

/-- A JSON-like Python value: `None`, `bool`, `int`, `str`, `list`, `dict`.
Dicts are association lists in insertion order. -/
inductive JSON where
  | null : JSON
  | bool : Bool → JSON
  | int  : Int → JSON
  | str  : String → JSON
  | arr  : List JSON → JSON
  | obj  : List (String × JSON) → JSON

/-- First value stored under key `k`, if any (Python `d[k]` / `d.get(k)` on a
dict, which has one entry per key). -/
def getEntry : List (String × JSON) → String → Option JSON
  | [], _ => none
  | (k, v) :: rest, key => if k = key then some v else getEntry rest key

/-- Python `key in d`. -/
def hasKey (d : List (String × JSON)) (k : String) : Bool :=
  (getEntry d k).isSome

/-- Python `d.get(k)`: the stored value, or `None` when the key is absent. -/
def getJ (d : List (String × JSON)) (k : String) : JSON :=
  (getEntry d k).getD JSON.null

/-- Python `d.get(k, default)`. -/
def getJD (d : List (String × JSON)) (k : String) (default : JSON) : JSON :=
  (getEntry d k).getD default

/-- Python truthiness of a JSON-like value. -/
def truthy : JSON → Bool
  | .null => false
  | .bool b => b
  | .int n => n != 0
  | .str s => s != ""
  | .arr xs => !xs.isEmpty
  | .obj kvs => !kvs.isEmpty

/-- Python `a or b` (value-returning, short-circuit). -/
def pyOr (a b : JSON) : JSON :=
  if truthy a then a else b

/-- Python `isinstance(v, dict)`. -/
def isObj : JSON → Bool
  | .obj _ => true
  | _ => false

/-- Python `isinstance(v, list)`. -/
def isArr : JSON → Bool
  | .arr _ => true
  | _ => false

/-! ### Python `==` on JSON values

Python compares dicts extensionally: same key set and equal value for every
key, irrespective of insertion order.  Lists compare positionally. -/

mutual

/-- Python `==` between two JSON-like values. -/
def pyEq : JSON → JSON → Bool
  | .null, .null => true
  | .bool a, .bool b => a == b
  | .int a, .int b => a == b
  | .str a, .str b => a == b
  | .arr a, .arr b => pyEqList a b
  | .obj a, .obj b => pyObjSub a b && a.all (fun e => hasKey b e.1) && b.all (fun e => hasKey a e.1)
  | _, _ => false

/-- Elementwise Python `==` on lists. -/
def pyEqList : List JSON → List JSON → Bool
  | [], [] => true
  | x :: xs, y :: ys => pyEq x y && pyEqList xs ys
  | _, _ => false

/-- Every entry of the first dict is present in the second with a `pyEq`-equal
value. -/
def pyObjSub : List (String × JSON) → List (String × JSON) → Bool
  | [], _ => true
  | (k, v) :: rest, b => pyFindEq k v b && pyObjSub rest b

/-- The second dict stores a value `pyEq`-equal to `v` under key `k`. -/
def pyFindEq : String → JSON → List (String × JSON) → Bool
  | _, _, [] => false
  | k, v, (k2, v2) :: rest => if k2 = k then pyEq v v2 else pyFindEq k v rest

end

/-! ### The persona normalizer

`normalize_persona_to_nested` (src/app/utils/persona_normalizer.py, lines
13-231).  The function is straight-line Python building one output dict; the
embedding mirrors it field by field.  `Canon` records the twelve top-level
components in the order in which the Python function inserts them, and
`toObj` lays them out as the output dict. -/

/-- Python `s.split(sep)` for a one-character separator (the normalizer only
splits on `"\n"` and `"."`): split a character list at every occurrence of
`c`, keeping empty fragments, so that `"a.b.".split(".") = ["a","b",""]`. -/
def splitChars (c : Char) : List Char → List (List Char)
  | [] => [[]]
  | x :: xs =>
    match splitChars c xs with
    | [] => [[]]
    | g :: gs => if x = c then [] :: g :: gs else (x :: g) :: gs

/-- Python `s.split(c)` as an operation on strings. -/
def pySplit (c : Char) (s : String) : List String :=
  (splitChars c s.data).map String.mk

/-- Python `s.strip()`: drop leading and trailing whitespace. -/
def pyStrip (s : String) : String :=
  String.mk (((s.data.dropWhile Char.isWhitespace).reverse.dropWhile Char.isWhitespace).reverse)

/-- Python `[g.strip() for g in s.split(sep) if g.strip()]`. -/
def stripSplit (sep : Char) (s : String) : List String :=
  ((pySplit sep s).map pyStrip).filter (fun g => g != "")

/-- Lines 143-146: a string `goals` value is split on newlines; when exactly
one item results it is re-split on periods, keeping stripped fragments of
length greater than 10. -/
def splitGoalsStr (s : String) : List String :=
  let goals := stripSplit '\n' s
  if goals.length = 1 then
    ((pySplit '.' s).map pyStrip).filter (fun g => g != "" && decide (10 < g.length))
  else goals

/-- Lines 73, 79, ...: `"demographics" in persona_data and
isinstance(persona_data["demographics"], dict)`. -/
def demographicsObj (pd : List (String × JSON)) : Option (List (String × JSON)) :=
  match getEntry pd "demographics" with
  | some (.obj d) => some d
  | _ => none

/-- The shared pattern of lines 71-74, 77-80, 92-95, 106-109, 112-115,
118-121: a flat top-level key wins, else the nested demographics object is
consulted (its `.get` yielding `None` when the sub-key is absent), else no
entry is produced. -/
def demoSimpleField (pd : List (String × JSON)) (field : String) : List (String × JSON) :=
  if hasKey pd field then [(field, getJ pd field)]
  else
    match demographicsObj pd with
    | some d => [(field, getJ d field)]
    | none => []

/-- Lines 83-89: location, with nationality as a final fallback. -/
def demoLocation (pd : List (String × JSON)) : List (String × JSON) :=
  if hasKey pd "location" then [("location", getJ pd "location")]
  else
    match demographicsObj pd with
    | some d => [("location", getJ d "location")]
    | none =>
      if hasKey pd "nationality" then [("location", getJ pd "nationality")] else []

/-- Lines 98-103: education, preferring `education`, then `education_level`,
then the nested object (`education or education_level`). -/
def demoEducation (pd : List (String × JSON)) : List (String × JSON) :=
  if hasKey pd "education" then [("education", getJ pd "education")]
  else if hasKey pd "education_level" then [("education", getJ pd "education_level")]
  else
    match demographicsObj pd with
    | some d => [("education", pyOr (getJ d "education") (getJ d "education_level"))]
    | none => []

/-- Lines 68-121: the demographics dict in insertion order. -/
def demographicsFields (pd : List (String × JSON)) : List (String × JSON) :=
  demoSimpleField pd "age" ++ demoSimpleField pd "gender" ++ demoLocation pd ++
  demoSimpleField pd "occupation" ++ demoEducation pd ++
  demoSimpleField pd "nationality" ++ demoSimpleField pd "income_bracket" ++
  demoSimpleField pd "relationship_status"

/-- Lines 226-229: `social_media_usage` is appended to the demographics dict
at the end of the function. -/
def socialMediaField (pd : List (String × JSON)) : List (String × JSON) :=
  if hasKey pd "social_media_usage" then [("social_media_usage", getJ pd "social_media_usage")]
  else []

/-- Lines 126-134: the background fallback chain ending in `""`. -/
def backgroundChain (pd : List (String × JSON)) : JSON :=
  pyOr (getJ pd "background") (pyOr (getJ pd "detailed_description")
    (pyOr (getJ pd "personal_background") (pyOr (getJ pd "background_and_personal_history")
      (pyOr (getJ pd "other_information") (pyOr (getJ pd "basic_description") (.str ""))))))

/-- Lines 136-154: goals as an array (the trailing `goals if goals else []`
is the identity on lists). -/
def goalsOf (pd : List (String × JSON)) : List JSON :=
  match getEntry pd "goals" with
  | some (.arr xs) => xs
  | some (.str s) => (splitGoalsStr s).map JSON.str
  | some _ => []
  | none =>
    match getEntry pd "goals_and_motivations" with
    | some (.obj gm) =>
      match getEntry gm "goals" with
      | some (.arr xs) => xs
      | some (.str s) => (stripSplit '\n' s).map JSON.str
      | _ => []
    | _ => []

/-- Lines 156-174: frustrations, falling back to `pain_points` and then
`pain_points_and_frustrations`. -/
def frustrationsOf (pd : List (String × JSON)) : List JSON :=
  match getEntry pd "frustrations" with
  | some (.arr xs) => xs
  | some (.str s) => (stripSplit '\n' s).map JSON.str
  | some _ => []
  | none =>
    match getEntry pd "pain_points" with
    | some (.arr xs) => xs
    | some (.str s) => (stripSplit '\n' s).map JSON.str
    | some _ => []
    | none =>
      match getEntry pd "pain_points_and_frustrations" with
      | some (.arr xs) => xs
      | some (.str s) => (stripSplit '\n' s).map JSON.str
      | some _ => []
      | none => []

/-- Lines 177-188 (the list that lines 190-191 keep only when non-empty). -/
def motivationsOf (pd : List (String × JSON)) : List JSON :=
  match getEntry pd "motivations" with
  | some (.arr xs) => xs
  | some (.str s) => (stripSplit '\n' s).map JSON.str
  | some _ => []
  | none =>
    match getEntry pd "goals_and_motivations" with
    | some (.obj gm) =>
      match getEntry gm "motivations" with
      | some (.arr xs) => xs
      | some (.str s) => (stripSplit '\n' s).map JSON.str
      | _ => []
    | _ => []

/-- Lines 190-191: `if motivations: normalized["motivations"] = motivations`. -/
def motivationsOpt (pd : List (String × JSON)) : Option (List JSON) :=
  let m := motivationsOf pd
  if m.isEmpty then none else some m

/-- Lines 194-197. -/
def behaviorsOpt (pd : List (String × JSON)) : Option JSON :=
  if hasKey pd "behaviors" then some (getJ pd "behaviors")
  else if hasKey pd "behaviors_and_preferences" then some (getJ pd "behaviors_and_preferences")
  else none

/-- Lines 200-213: pass a dict through, else synthesize one from
`technology_usage` / `digital_literacy`. -/
def technologyProfileOpt (pd : List (String × JSON)) : Option (List (String × JSON)) :=
  match getEntry pd "technology_profile" with
  | some (.obj tp) => some tp
  | _ =>
    if hasKey pd "technology_usage" || hasKey pd "digital_literacy" then
      let tp :=
        (if hasKey pd "technology_usage" then
          [("primary_devices",
            match getJ pd "technology_usage" with
            | .arr xs => JSON.arr xs
            | v => JSON.arr [v])]
        else []) ++
        (if hasKey pd "digital_literacy" then [("comfort_level", getJ pd "digital_literacy")]
        else [])
      if tp.isEmpty then none else some tp
    else none

/-- Lines 216-219: a list-valued `quotes` wins, else a `quote` key. -/
inductive QuoteField where
  | quotes (l : List JSON)
  | quote (v : JSON)

/-- Lines 216-219. -/
def quoteOpt (pd : List (String × JSON)) : Option QuoteField :=
  match getEntry pd "quotes" with
  | some (.arr q) => some (.quotes q)
  | _ => if hasKey pd "quote" then some (.quote (getJ pd "quote")) else none

/-- Line 222-223. -/
def otherInformationOpt (pd : List (String × JSON)) : Option JSON :=
  if hasKey pd "other_information" then some (getJ pd "other_information") else none

/-- The twelve top-level components of a normalized persona, in the order in
which `normalize_persona_to_nested` inserts them. -/
structure Canon where
  pid : JSON
  name : JSON
  tagline : JSON
  demo : List (String × JSON)
  bg : JSON
  goals : List JSON
  frust : List JSON
  mot : Option (List JSON)
  beh : Option JSON
  tech : Option (List (String × JSON))
  quo : Option QuoteField
  oth : Option JSON

/-- An optional single-entry segment of the output dict. -/
def optEntry (key : String) : Option JSON → List (String × JSON)
  | none => []
  | some v => [(key, v)]

/-- The quotes/quote segment of the output dict. -/
def quoteEntries : Option QuoteField → List (String × JSON)
  | none => []
  | some (.quotes l) => [("quotes", .arr l)]
  | some (.quote v) => [("quote", v)]

/-- The optional trailing segments of the output dict (insertion order:
motivations, behaviors, technology_profile, quotes/quote, other_information). -/
def tailEntries (c : Canon) : List (String × JSON) :=
  optEntry "motivations" (c.mot.map JSON.arr) ++ optEntry "behaviors" c.beh ++
  optEntry "technology_profile" (c.tech.map JSON.obj) ++ quoteEntries c.quo ++
  optEntry "other_information" c.oth

/-- Lay a `Canon` out as the output dict, in insertion order. -/
def toObj (c : Canon) : List (String × JSON) :=
  ("persona_id", c.pid) :: ("name", c.name) :: ("tagline", c.tagline) ::
  ("demographics", .obj c.demo) :: ("background", c.bg) ::
  ("goals", .arr c.goals) :: ("frustrations", .arr c.frust) :: tailEntries c

/-- The components `normalize_persona_to_nested` computes from its input. -/
def normCanon (pd : List (String × JSON)) : Canon where
  pid := getJ pd "persona_id"                                -- line 59
  name := getJD pd "name" (.str "Unknown Persona")           -- line 62
  tagline := pyOr (getJ pd "tagline") (getJ pd "role")       -- line 65
  demo := demographicsFields pd ++ socialMediaField pd       -- lines 68-123, 226-229
  bg := backgroundChain pd                                   -- lines 126-134
  goals := goalsOf pd                                        -- lines 136-154
  frust := frustrationsOf pd                                 -- lines 156-174
  mot := motivationsOpt pd                                   -- lines 177-191
  beh := behaviorsOpt pd                                     -- lines 194-197
  tech := technologyProfileOpt pd                            -- lines 200-213
  quo := quoteOpt pd                                         -- lines 216-219
  oth := otherInformationOpt pd                              -- lines 222-223

/-- `normalize_persona_to_nested(persona_data)`
(src/app/utils/persona_normalizer.py, lines 13-231). -/
def normalize_persona_to_nested (pd : List (String × JSON)) : List (String × JSON) :=
  toObj (normCanon pd)

/-! Sanity checks of the embedding on concrete values. -/

example :
    getEntry (normalize_persona_to_nested
      [("name", .str "Ana"), ("age", .int 34),
       ("goals", .str "Save money. Travel more. Learn Spanish.")]) "goals"
    = some (.arr [.str "Travel more", .str "Learn Spanish"]) := rfl

example :
    getEntry (normalize_persona_to_nested
      [("name", .str "Ana"), ("age", .int 34),
       ("goals", .str "Save money. Travel more. Learn Spanish.")]) "demographics"
    = some (.obj [("age", .int 34)]) := rfl

example :
    normalize_persona_to_nested [] =
      [("persona_id", .null), ("name", .str "Unknown Persona"), ("tagline", .null),
       ("demographics", .obj []), ("background", .str ""),
       ("goals", .arr []), ("frustrations", .arr [])] := rfl

example :
    getEntry (normalize_persona_to_nested (normalize_persona_to_nested [])) "demographics"
    = some (.obj [("age", .null), ("gender", .null), ("location", .null),
        ("occupation", .null), ("education", .null), ("nationality", .null),
        ("income_bracket", .null), ("relationship_status", .null)]) := rfl

/-! ### Lookup lemmas for normalized personas -/

@[simp] theorem getEntry_nil (k : String) : getEntry [] k = none := rfl

@[simp] theorem getEntry_cons (k' : String) (v : JSON) (rest : List (String × JSON)) (k : String) :
    getEntry ((k', v) :: rest) k = if k' = k then some v else getEntry rest k := rfl

/-- Left-biased choice on optional lookups, used to state `getEntry` on
appended segments. -/
def oor {α : Type} : Option α → Option α → Option α
  | some v, _ => some v
  | none, b => b

@[simp] theorem oor_some {α : Type} (v : α) (b : Option α) : oor (some v) b = some v := rfl

@[simp] theorem oor_none {α : Type} (b : Option α) : oor none b = b := rfl

@[simp] theorem oor_none_right {α : Type} (a : Option α) : oor a none = a := by
  cases a <;> rfl

@[simp] theorem getEntry_append (l₁ l₂ : List (String × JSON)) (k : String) :
    getEntry (l₁ ++ l₂) k = oor (getEntry l₁ k) (getEntry l₂ k) := by
  induction l₁ with
  | nil => simp
  | cons e rest ih =>
    obtain ⟨k', v⟩ := e
    by_cases h : k' = k <;> simp [h, ih]

@[simp] theorem getEntry_optEntry_self (key : String) (v : Option JSON) :
    getEntry (optEntry key v) key = v := by
  cases v <;> simp [optEntry]

@[simp] theorem getEntry_optEntry_ne (key : String) (v : Option JSON) (k : String)
    (h : ¬ key = k) : getEntry (optEntry key v) k = none := by
  cases v <;> simp [optEntry, h]

@[simp] theorem getEntry_quoteEntries_ne (q : Option QuoteField) (k : String)
    (h1 : ¬ "quotes" = k) (h2 : ¬ "quote" = k) : getEntry (quoteEntries q) k = none := by
  rcases q with _ | q
  · simp [quoteEntries]
  · cases q <;> simp [quoteEntries, h1, h2]

/-- The trailing segments define no key outside their six names. -/
theorem getEntry_tailEntries_ne (c : Canon) (k : String)
    (h : ¬ "motivations" = k) (h2 : ¬ "behaviors" = k) (h3 : ¬ "technology_profile" = k)
    (h4 : ¬ "quotes" = k) (h5 : ¬ "quote" = k) (h6 : ¬ "other_information" = k) :
    getEntry (tailEntries c) k = none := by
  simp [tailEntries, h, h2, h3, h4, h5, h6]

theorem getEntry_tailEntries_mot (c : Canon) :
    getEntry (tailEntries c) "motivations" = c.mot.map JSON.arr := by
  simp [tailEntries]

theorem getEntry_tailEntries_beh (c : Canon) :
    getEntry (tailEntries c) "behaviors" = c.beh := by
  simp [tailEntries]

theorem getEntry_tailEntries_tech (c : Canon) :
    getEntry (tailEntries c) "technology_profile" = c.tech.map JSON.obj := by
  simp [tailEntries]

theorem getEntry_tailEntries_quotes (c : Canon) :
    getEntry (tailEntries c) "quotes"
      = (match c.quo with | some (.quotes l) => some (JSON.arr l) | _ => none) := by
  rcases hq : c.quo with _ | q
  · simp [tailEntries, quoteEntries, hq]
  · cases q <;> simp [tailEntries, quoteEntries, hq]

theorem getEntry_tailEntries_quote (c : Canon) :
    getEntry (tailEntries c) "quote"
      = (match c.quo with | some (.quote v) => some v | _ => none) := by
  rcases hq : c.quo with _ | q
  · simp [tailEntries, quoteEntries, hq]
  · cases q <;> simp [tailEntries, quoteEntries, hq]

theorem getEntry_tailEntries_oth (c : Canon) :
    getEntry (tailEntries c) "other_information" = c.oth := by
  simp [tailEntries]

theorem getEntry_toObj_pid (c : Canon) : getEntry (toObj c) "persona_id" = some c.pid := by
  simp [toObj]

theorem getEntry_toObj_name (c : Canon) : getEntry (toObj c) "name" = some c.name := by
  simp [toObj]

theorem getEntry_toObj_tagline (c : Canon) : getEntry (toObj c) "tagline" = some c.tagline := by
  simp [toObj]

theorem getEntry_toObj_demographics (c : Canon) :
    getEntry (toObj c) "demographics" = some (.obj c.demo) := by
  simp [toObj]

theorem getEntry_toObj_background (c : Canon) :
    getEntry (toObj c) "background" = some c.bg := by
  simp [toObj]

theorem getEntry_toObj_goals (c : Canon) :
    getEntry (toObj c) "goals" = some (.arr c.goals) := by
  simp [toObj]

theorem getEntry_toObj_frustrations (c : Canon) :
    getEntry (toObj c) "frustrations" = some (.arr c.frust) := by
  simp [toObj]

theorem getEntry_toObj_mot (c : Canon) :
    getEntry (toObj c) "motivations" = c.mot.map JSON.arr := by
  simp [toObj, getEntry_tailEntries_mot]

theorem getEntry_toObj_beh (c : Canon) :
    getEntry (toObj c) "behaviors" = c.beh := by
  simp [toObj, getEntry_tailEntries_beh]

theorem getEntry_toObj_tech (c : Canon) :
    getEntry (toObj c) "technology_profile" = c.tech.map JSON.obj := by
  simp [toObj, getEntry_tailEntries_tech]

theorem getEntry_toObj_quotes (c : Canon) :
    getEntry (toObj c) "quotes"
      = (match c.quo with | some (.quotes l) => some (JSON.arr l) | _ => none) := by
  simp [toObj, getEntry_tailEntries_quotes]

theorem getEntry_toObj_quote (c : Canon) :
    getEntry (toObj c) "quote"
      = (match c.quo with | some (.quote v) => some v | _ => none) := by
  simp [toObj, getEntry_tailEntries_quote]

theorem getEntry_toObj_oth (c : Canon) :
    getEntry (toObj c) "other_information" = c.oth := by
  simp [toObj, getEntry_tailEntries_oth]

/-- The keys a normalized persona never has at top level. -/
theorem getEntry_toObj_absent (c : Canon) (k : String)
    (n1 : ¬ "persona_id" = k) (n2 : ¬ "name" = k) (n3 : ¬ "tagline" = k)
    (n4 : ¬ "demographics" = k) (n5 : ¬ "background" = k) (n6 : ¬ "goals" = k)
    (n7 : ¬ "frustrations" = k) (n8 : ¬ "motivations" = k) (n9 : ¬ "behaviors" = k)
    (n10 : ¬ "technology_profile" = k) (n11 : ¬ "quotes" = k) (n12 : ¬ "quote" = k)
    (n13 : ¬ "other_information" = k) : getEntry (toObj c) k = none := by
  simp [toObj, n1, n2, n3, n4, n5, n6, n7, getEntry_tailEntries_ne c k n8 n9 n10 n11 n12 n13]

/-! ### Normalization is a double-pass fixed point

`Canon2OK` captures the shape every twice-normalized persona has, and on
which `normalize_persona_to_nested` acts as the identity. -/

@[simp] theorem pyOr_null_left (b : JSON) : pyOr .null b = b := rfl

@[simp] theorem truthy_str_empty : truthy (.str "") = false := rfl

@[simp] theorem truthy_null : truthy .null = false := rfl

/-- Truthy, or exactly `None` (the possible results of Python `a or b` whose
last operand is `None`). -/
def truthyOrNull (j : JSON) : Prop := truthy j = true ∨ j = JSON.null

theorem pyOr_of_truthyOrNull (a : JSON) (h : truthyOrNull a) : pyOr a .null = a := by
  rcases h with h | h <;> simp [pyOr, h]

theorem truthyOrNull_pyOr_null (a : JSON) : truthyOrNull (pyOr a .null) := by
  by_cases h : truthy a = true
  · exact Or.inl (by simp [pyOr, h])
  · exact Or.inr (by simp [pyOr, h])

/-- The shape of a twice-normalized persona: tagline and education are truthy
or `None`, the demographics dict has exactly the eight canonical keys, a
falsy background forces the empty string with a falsy `other_information`,
and a recorded motivations list is non-empty. -/
def Canon2OK (c : Canon) : Prop :=
  truthyOrNull c.tagline ∧
  (∃ a g l o e n i r, c.demo =
      [("age", a), ("gender", g), ("location", l), ("occupation", o), ("education", e),
       ("nationality", n), ("income_bracket", i), ("relationship_status", r)] ∧
      truthyOrNull e) ∧
  (truthy c.bg = true ∨
    (c.bg = .str "" ∧ ∀ v, c.oth = some v → truthy v = false)) ∧
  (∀ m, c.mot = some m → m ≠ [])

theorem normCanon_toObj_pid (c : Canon) : (normCanon (toObj c)).pid = c.pid := by
  simp [normCanon, getJ, getEntry_toObj_pid]

theorem normCanon_toObj_name (c : Canon) : (normCanon (toObj c)).name = c.name := by
  simp [normCanon, getJD, getEntry_toObj_name]

theorem normCanon_toObj_tagline (c : Canon) :
    (normCanon (toObj c)).tagline = pyOr c.tagline .null := by
  have hrole : getEntry (toObj c) "role" = none := by simp [toObj, tailEntries]
  simp [normCanon, getJ, getEntry_toObj_tagline, hrole]

theorem normCanon_toObj_demo (c : Canon) :
    (normCanon (toObj c)).demo =
      [("age", getJ c.demo "age"), ("gender", getJ c.demo "gender"),
       ("location", getJ c.demo "location"), ("occupation", getJ c.demo "occupation"),
       ("education", pyOr (getJ c.demo "education") (getJ c.demo "education_level")),
       ("nationality", getJ c.demo "nationality"),
       ("income_bracket", getJ c.demo "income_bracket"),
       ("relationship_status", getJ c.demo "relationship_status")] := by
  simp [normCanon, demographicsFields, demoSimpleField, demoLocation, demoEducation,
    socialMediaField, demographicsObj, hasKey, toObj, tailEntries, getJ]

theorem normCanon_toObj_bg (c : Canon) :
    (normCanon (toObj c)).bg = pyOr c.bg (pyOr (c.oth.getD .null) (.str "")) := by
  have h1 : getEntry (toObj c) "detailed_description" = none := by simp [toObj, tailEntries]
  have h2 : getEntry (toObj c) "personal_background" = none := by simp [toObj, tailEntries]
  have h3 : getEntry (toObj c) "background_and_personal_history" = none := by
    simp [toObj, tailEntries]
  have h4 : getEntry (toObj c) "basic_description" = none := by simp [toObj, tailEntries]
  simp [normCanon, backgroundChain, getJ, getEntry_toObj_background, getEntry_toObj_oth,
    h1, h2, h3, h4]

theorem normCanon_toObj_goals (c : Canon) : (normCanon (toObj c)).goals = c.goals := by
  simp [normCanon, goalsOf, getEntry_toObj_goals]

theorem normCanon_toObj_frust (c : Canon) : (normCanon (toObj c)).frust = c.frust := by
  simp [normCanon, frustrationsOf, getEntry_toObj_frustrations]

/-- `motivationsOpt` never records an empty list. -/
theorem motivationsOpt_ne_nil (pd : List (String × JSON)) :
    ∀ m, motivationsOpt pd = some m → m ≠ [] := by
  intro m h
  unfold motivationsOpt at h
  by_cases he : (motivationsOf pd).isEmpty
  · simp [he] at h
  · simp [he] at h
    intro hnil
    rw [h, hnil] at he
    simp at he

theorem normCanon_toObj_mot (c : Canon) (h : ∀ m, c.mot = some m → m ≠ []) :
    (normCanon (toObj c)).mot = c.mot := by
  have hgm : getEntry (toObj c) "goals_and_motivations" = none := by simp [toObj, tailEntries]
  rcases hm : c.mot with _ | m
  · simp [normCanon, motivationsOpt, motivationsOf, getEntry_toObj_mot, hm, hgm]
  · have hne : m ≠ [] := h m hm
    have hemp : m.isEmpty = false := by
      cases m
      · exact absurd rfl hne
      · rfl
    simp [normCanon, motivationsOpt, motivationsOf, getEntry_toObj_mot, hm, hemp]

theorem normCanon_toObj_beh (c : Canon) : (normCanon (toObj c)).beh = c.beh := by
  have hbp : getEntry (toObj c) "behaviors_and_preferences" = none := by
    simp [toObj, tailEntries]
  rcases hb : c.beh with _ | v <;>
    simp [normCanon, behaviorsOpt, hasKey, getJ, getEntry_toObj_beh, hb, hbp]

theorem normCanon_toObj_tech (c : Canon) : (normCanon (toObj c)).tech = c.tech := by
  have hu : getEntry (toObj c) "technology_usage" = none := by simp [toObj, tailEntries]
  have hd : getEntry (toObj c) "digital_literacy" = none := by simp [toObj, tailEntries]
  rcases ht : c.tech with _ | tp <;>
    simp [normCanon, technologyProfileOpt, hasKey, getEntry_toObj_tech, ht, hu, hd]

theorem normCanon_toObj_quo (c : Canon) : (normCanon (toObj c)).quo = c.quo := by
  rcases hq : c.quo with _ | q
  · simp [normCanon, quoteOpt, hasKey, getEntry_toObj_quotes, getEntry_toObj_quote, hq]
  · cases q <;>
      simp [normCanon, quoteOpt, hasKey, getJ, getEntry_toObj_quotes, getEntry_toObj_quote, hq]

theorem normCanon_toObj_oth (c : Canon) : (normCanon (toObj c)).oth = c.oth := by
  rcases ho : c.oth with _ | v <;>
    simp [normCanon, otherInformationOpt, hasKey, getJ, getEntry_toObj_oth, ho]

/-- On a `Canon2OK` persona, normalization is the identity. -/
theorem normCanon_toObj_eq_self (c : Canon) (h : Canon2OK c) : normCanon (toObj c) = c := by
  obtain ⟨htag, ⟨a, g, l, o, e, n, i, r, hdemo, hedu⟩, hbg, hmot⟩ := h
  have hpid := normCanon_toObj_pid c
  have hname := normCanon_toObj_name c
  have htag2 : (normCanon (toObj c)).tagline = c.tagline := by
    rw [normCanon_toObj_tagline c]; exact pyOr_of_truthyOrNull _ htag
  have hdemo2 : (normCanon (toObj c)).demo = c.demo := by
    rw [normCanon_toObj_demo c, hdemo]
    simp [getJ]
    exact pyOr_of_truthyOrNull _ hedu
  have hbg2 : (normCanon (toObj c)).bg = c.bg := by
    rw [normCanon_toObj_bg c]
    rcases hbg with hb | ⟨hb, hoth⟩
    · simp [pyOr, hb]
    · rw [hb]
      rcases ho : c.oth with _ | v
      · simp [ho, pyOr]
      · have hv := hoth v ho
        simp [ho, pyOr, hv]
  have hgoals := normCanon_toObj_goals c
  have hfrust := normCanon_toObj_frust c
  have hm2 := normCanon_toObj_mot c hmot
  have hbeh := normCanon_toObj_beh c
  have htech := normCanon_toObj_tech c
  have hquo := normCanon_toObj_quo c
  have hoth2 := normCanon_toObj_oth c
  cases hc : normCanon (toObj c)
  cases c
  simp_all

/-- A second normalization pass always lands in `Canon2OK`, provided the
input demographics dict has no `education_level` key (which holds for every
output of the normalizer). -/
theorem canon2OK_normCanon_toObj (c : Canon)
    (h : getEntry c.demo "education_level" = none) :
    Canon2OK (normCanon (toObj c)) := by
  refine ⟨?_, ?_, ?_, ?_⟩
  · rw [normCanon_toObj_tagline c]
    exact truthyOrNull_pyOr_null _
  · refine ⟨getJ c.demo "age", getJ c.demo "gender", getJ c.demo "location",
      getJ c.demo "occupation", pyOr (getJ c.demo "education") (getJ c.demo "education_level"),
      getJ c.demo "nationality", getJ c.demo "income_bracket",
      getJ c.demo "relationship_status", normCanon_toObj_demo c, ?_⟩
    have : getJ c.demo "education_level" = .null := by simp [getJ, h]
    rw [this]
    exact truthyOrNull_pyOr_null _
  · rw [normCanon_toObj_bg c, normCanon_toObj_oth c]
    by_cases hb : truthy c.bg = true
    · left; simp [pyOr, hb]
    · rcases ho : c.oth with _ | v
      · right
        constructor
        · simp [pyOr, hb, ho]
        · intro v hv
          simp at hv
      · by_cases hv : truthy v = true
        · left; simp [pyOr, hb, ho, hv]
        · right
          constructor
          · simp [pyOr, hb, ho, hv]
          · intro w hw
            rw [Option.some_inj] at hw
            rw [← hw]
            simp at hv
            exact hv
  · intro m hm
    exact motivationsOpt_ne_nil (toObj c) m hm

/-- The keys of a `demoSimpleField` segment are limited to its field name. -/
@[simp] theorem getEntry_demoSimpleField_ne (pd : List (String × JSON)) (field k : String)
    (h : ¬ field = k) : getEntry (demoSimpleField pd field) k = none := by
  unfold demoSimpleField
  by_cases hk : hasKey pd field
  · simp [hk, h]
  · rcases hd : demographicsObj pd with _ | d <;> simp [hk, hd, h]

@[simp] theorem getEntry_demoLocation_ne (pd : List (String × JSON)) (k : String)
    (h : ¬ "location" = k) : getEntry (demoLocation pd) k = none := by
  unfold demoLocation
  by_cases hk : hasKey pd "location"
  · simp [hk, h]
  · rcases hd : demographicsObj pd with _ | d
    · by_cases hn : hasKey pd "nationality" <;> simp [hk, hd, hn, h]
    · simp [hk, hd, h]

@[simp] theorem getEntry_demoEducation_ne (pd : List (String × JSON)) (k : String)
    (h : ¬ "education" = k) : getEntry (demoEducation pd) k = none := by
  unfold demoEducation
  by_cases h1 : hasKey pd "education"
  · simp [h1, h]
  · by_cases h2 : hasKey pd "education_level"
    · simp [h1, h2, h]
    · rcases hd : demographicsObj pd with _ | d <;> simp [h1, h2, hd, h]

@[simp] theorem getEntry_socialMediaField_ne (pd : List (String × JSON)) (k : String)
    (h : ¬ "social_media_usage" = k) : getEntry (socialMediaField pd) k = none := by
  unfold socialMediaField
  by_cases hk : hasKey pd "social_media_usage" <;> simp [hk, h]

/-- The normalizer never writes an `education_level` key into the
demographics dict. -/
theorem eduLevel_absent (pd : List (String × JSON)) :
    getEntry (normCanon pd).demo "education_level" = none := by
  simp [normCanon, demographicsFields]

/-- C1, amended half: from the second application onwards the normalizer is a
fixed point, i.e. `normalize (normalize (normalize x)) = normalize (normalize x)`
as identical dicts (hence equal as Python dicts) for every input dict `x`. -/
theorem normalize_idempotent_from_second_pass (pd : List (String × JSON)) :
    normalize_persona_to_nested (normalize_persona_to_nested (normalize_persona_to_nested pd))
      = normalize_persona_to_nested (normalize_persona_to_nested pd) := by
  unfold normalize_persona_to_nested
  exact congrArg toObj (normCanon_toObj_eq_self _ (canon2OK_normCanon_toObj _ (eduLevel_absent pd)))

/-- C1 counterexample: normalization is not idempotent as Python dict
equality.  For the raw persona `x = {}` the first pass yields an empty
`demographics` object while the second pass fills it with eight `None`-valued
keys, so `normalize(normalize({})) != normalize({})` as dicts. -/
theorem normalize_not_idempotent_on_empty :
    pyEq (.obj (normalize_persona_to_nested (normalize_persona_to_nested [])))
      (.obj (normalize_persona_to_nested [])) = false := by
  have h1 : normalize_persona_to_nested [] =
      [("persona_id", .null), ("name", .str "Unknown Persona"), ("tagline", .null),
       ("demographics", .obj []), ("background", .str ""),
       ("goals", .arr []), ("frustrations", .arr [])] := rfl
  have h2 : normalize_persona_to_nested (normalize_persona_to_nested []) =
      [("persona_id", .null), ("name", .str "Unknown Persona"), ("tagline", .null),
       ("demographics", .obj [("age", .null), ("gender", .null), ("location", .null),
          ("occupation", .null), ("education", .null), ("nationality", .null),
          ("income_bracket", .null), ("relationship_status", .null)]),
       ("background", .str ""), ("goals", .arr []), ("frustrations", .arr [])] := rfl
  rw [h2, h1]
  simp [pyEq, pyObjSub, pyFindEq, pyEqList, hasKey, getEntry]

/-! ### C4: the goals-splitting scenario -/

/-- C4 counterexample: normalizing
`{"name": "Ana", "age": 34, "goals": "Save money. Travel more. Learn Spanish."}`
yields a 2-element goals array — `"Save money"` has exactly 10 characters and
line 146 keeps only fragments strictly longer than 10 — so the claimed
3-element array `["Save money", "Travel more", "Learn Spanish"]` is wrong. -/
theorem normalize_ana_goals_two_elements :
    getEntry (normalize_persona_to_nested
        [("name", .str "Ana"), ("age", .int 34),
         ("goals", .str "Save money. Travel more. Learn Spanish.")]) "goals"
      = some (.arr [.str "Travel more", .str "Learn Spanish"]) ∧
    pyEq (.arr [.str "Travel more", .str "Learn Spanish"])
      (.arr [.str "Save money", .str "Travel more", .str "Learn Spanish"]) = false := by
  constructor
  · rfl
  · simp [pyEq, pyEqList]

/-- C4 (amended): normalizing the Ana persona yields `demographics.age == 34`
and `goals == ["Travel more", "Learn Spanish"]`; in general a string-valued
goals field is split on newlines, and when that yields a single item it is
split on periods discarding stripped fragments of 10 characters or fewer
(keeping only those strictly longer than 10). -/
theorem normalize_ana_scenario :
    (∃ d, getEntry (normalize_persona_to_nested
        [("name", .str "Ana"), ("age", .int 34),
         ("goals", .str "Save money. Travel more. Learn Spanish.")]) "demographics"
        = some (.obj d) ∧ getEntry d "age" = some (.int 34)) ∧
    getEntry (normalize_persona_to_nested
        [("name", .str "Ana"), ("age", .int 34),
         ("goals", .str "Save money. Travel more. Learn Spanish.")]) "goals"
      = some (.arr [.str "Travel more", .str "Learn Spanish"]) ∧
    (∀ s : String, (stripSplit '\n' s).length ≠ 1 → splitGoalsStr s = stripSplit '\n' s) ∧
    (∀ s : String, (stripSplit '\n' s).length = 1 →
      ∀ g ∈ splitGoalsStr s, 10 < g.length) := by
  refine ⟨⟨[("age", .int 34)], rfl, rfl⟩, rfl, ?_, ?_⟩
  · intro s h
    simp [splitGoalsStr, h]
  · intro s h g hg
    rw [splitGoalsStr] at hg
    simp only [h, if_pos] at hg
    rcases List.mem_filter.mp hg with ⟨-, hp⟩
    simp at hp
    exact hp.2

/-- Witness for the amended C4 theorem at the Ana goals string. -/
theorem normalize_ana_scenario_witness : 10 < ("Travel more".length) :=
  normalize_ana_scenario.2.2.2 "Save money. Travel more. Learn Spanish." (by decide)
    "Travel more" (by decide)

/-! ### The diversity scorer

`_calculate_rqe` (src/backend/app/services/iterative_generation_service.py,
lines 351-414).  The persona texts are embedded by the opaque embedding
backend and `cosine_similarity` produces the similarity matrix; the matrix is
therefore a parameter here, exactly as the specification quantifies over
"similarity inputs".  `offDiagonal` is `similarity_matrix[~np.eye(n, dtype=bool)]`:
all entries outside the diagonal, row-major. -/

/-- Row-major off-diagonal entries of a matrix (numpy mask `~eye`). -/
def offDiagonal (m : List (List ℚ)) : List ℚ :=
  (m.enum.map (fun p => p.2.enum.filterMap
      (fun q => if p.1 = q.1 then none else some q.2))).join

/-- Lines 372-373 and 396-401 of `_calculate_rqe`: fewer than two personas
score 1.0; otherwise the score is one minus the mean off-diagonal
similarity. -/
def calculate_rqe (personas : List (List (String × JSON))) (simMatrix : List (List ℚ)) : ℚ :=
  if personas.isEmpty ∨ personas.length < 2 then 1
  else 1 - (offDiagonal simMatrix).sum / (offDiagonal simMatrix).length

/-- Every off-diagonal entry is an entry of some row. -/
theorem offDiagonal_mem (m : List (List ℚ)) (x : ℚ) (hx : x ∈ offDiagonal m) :
    ∃ row ∈ m, x ∈ row := by
  unfold offDiagonal at hx
  rcases List.mem_join.mp hx with ⟨l, hl, hxl⟩
  rcases List.mem_map.mp hl with ⟨p, hp, rfl⟩
  rcases List.mem_filterMap.mp hxl with ⟨q, hq, hqx⟩
  refine ⟨p.2, ?_, ?_⟩
  · have := List.mem_map_of_mem Prod.snd hp
    rwa [List.enum_map_snd] at this
  · by_cases hd : p.1 = q.1
    · simp [hd] at hqx
    · simp [hd] at hqx
      subst hqx
      have := List.mem_map_of_mem Prod.snd hq
      rwa [List.enum_map_snd] at this

theorem list_sum_le_mul (l : List ℚ) (b : ℚ) (h : ∀ x ∈ l, x ≤ b) :
    l.sum ≤ l.length * b := by
  induction l with
  | nil => simp
  | cons x xs ih =>
    have hx := h x (List.mem_cons_self x xs)
    have hxs := ih (fun y hy => h y (List.mem_cons_of_mem x hy))
    simp only [List.sum_cons, List.length_cons]
    push_cast
    nlinarith

theorem mul_le_list_sum (l : List ℚ) (a : ℚ) (h : ∀ x ∈ l, a ≤ x) :
    l.length * a ≤ l.sum := by
  induction l with
  | nil => simp
  | cons x xs ih =>
    have hx := h x (List.mem_cons_self x xs)
    have hxs := ih (fun y hy => h y (List.mem_cons_of_mem x hy))
    simp only [List.sum_cons, List.length_cons]
    push_cast
    nlinarith

/-- Mean of a non-empty list is bounded by elementwise bounds. -/
theorem list_mean_bounds (l : List ℚ) (a b : ℚ) (hne : l ≠ [])
    (hlo : ∀ x ∈ l, a ≤ x) (hhi : ∀ x ∈ l, x ≤ b) :
    a ≤ l.sum / l.length ∧ l.sum / l.length ≤ b := by
  have hpos : (0 : ℚ) < l.length := by
    have := List.length_pos.mpr hne
    exact_mod_cast this
  constructor
  · rw [le_div_iff hpos]
    have := mul_le_list_sum l a hlo
    linarith [this]
  · rw [div_le_iff hpos]
    have := list_sum_le_mul l b hhi
    linarith [this]

/-- With at least two personas and a square matrix, the off-diagonal list is
non-empty. -/
theorem offDiagonal_ne_nil (m : List (List ℚ)) (n : ℕ) (hn : 2 ≤ n)
    (hm : m.length = n) (hrows : ∀ row ∈ m, row.length = n) :
    offDiagonal m ≠ [] := by
  match m, hm with
  | [], hm => simp at hm; omega
  | [r0], hm => simp at hm; omega
  | r0 :: r1 :: rest, hm =>
    have hr0 : r0.length = n := hrows r0 (List.mem_cons_self _ _)
    match r0, hr0 with
    | [], hr0 => simp at hr0; omega
    | [x], hr0 => simp at hr0; omega
    | x :: y :: t, hr0 =>
      apply List.ne_nil_of_mem (a := y)
      unfold offDiagonal
      apply List.mem_join.mpr
      refine ⟨((0 : ℕ), x :: y :: t).2.enum.filterMap
        (fun q => if ((0 : ℕ), x :: y :: t).1 = q.1 then none else some q.2), ?_, ?_⟩
      · apply List.mem_map.mpr
        exact ⟨((0 : ℕ), x :: y :: t), by simp [List.enum], rfl⟩
      · apply List.mem_filterMap.mpr
        refine ⟨(1, y), ?_, by simp⟩
        simp [List.enum]

/-- C9: a persona set with 0 or 1 personas scores `rqe_score == 1.0`, for
every similarity matrix (no pairwise similarity enters the result). -/
theorem calculate_rqe_small_set (personas : List (List (String × JSON)))
    (m : List (List ℚ)) (h : personas.length < 2) : calculate_rqe personas m = 1 := by
  simp [calculate_rqe, h]

/-- Witness for C9 at the empty persona set. -/
theorem calculate_rqe_small_set_witness : calculate_rqe [] [[1, -1], [-1, 1]] = 1 :=
  calculate_rqe_small_set [] [[1, -1], [-1, 1]] (by decide)

/-- C3 counterexample: for two personas with pairwise similarity `-1` (all
inputs within `[-1, 1]`), the score is `1 - (-1) = 2`, outside `[0, 1]`. -/
theorem calculate_rqe_exceeds_one :
    calculate_rqe [[("name", .str "A")], [("name", .str "B")]] [[1, -1], [-1, 1]] = 2 ∧
    (∀ x ∈ offDiagonal [[(1 : ℚ), -1], [-1, 1]], -1 ≤ x ∧ x ≤ 1) ∧
    ¬ calculate_rqe [[("name", .str "A")], [("name", .str "B")]] [[1, -1], [-1, 1]] ≤ 1 := by
  refine ⟨?_, by decide, ?_⟩ <;>
    norm_num [calculate_rqe, offDiagonal, List.enum, List.enumFrom, List.filterMap]

/-- C3 (amended): for at least two personas and a square similarity matrix,
the diversity score equals one minus the mean off-diagonal similarity; it
lies in `[0, 2]` when every similarity input lies in `[-1, 1]`, and in
`[0, 1]` when every similarity input lies in `[0, 1]`. -/
theorem calculate_rqe_bounds (personas : List (List (String × JSON)))
    (m : List (List ℚ)) (n : ℕ) (hn : 2 ≤ n) (hp : personas.length = n)
    (hm : m.length = n) (hrows : ∀ row ∈ m, row.length = n)
    (hlo : ∀ row ∈ m, ∀ x ∈ row, -1 ≤ x) (hhi : ∀ row ∈ m, ∀ x ∈ row, x ≤ 1) :
    calculate_rqe personas m = 1 - (offDiagonal m).sum / (offDiagonal m).length ∧
    0 ≤ calculate_rqe personas m ∧ calculate_rqe personas m ≤ 2 ∧
    ((∀ row ∈ m, ∀ x ∈ row, 0 ≤ x) → calculate_rqe personas m ≤ 1) := by
  have hval : calculate_rqe personas m
      = 1 - (offDiagonal m).sum / (offDiagonal m).length := by
    have h1 : ¬ personas.isEmpty = true := by
      cases personas
      · simp at hp; omega
      · simp
    have h2 : ¬ personas.length < 2 := by omega
    simp [calculate_rqe, h1, h2]
  have hne := offDiagonal_ne_nil m n hn hm hrows
  have hlo2 : ∀ x ∈ offDiagonal m, (-1 : ℚ) ≤ x := by
    intro x hx
    rcases offDiagonal_mem m x hx with ⟨row, hrow, hxrow⟩
    exact hlo row hrow x hxrow
  have hhi2 : ∀ x ∈ offDiagonal m, x ≤ (1 : ℚ) := by
    intro x hx
    rcases offDiagonal_mem m x hx with ⟨row, hrow, hxrow⟩
    exact hhi row hrow x hxrow
  have hmean := list_mean_bounds (offDiagonal m) (-1) 1 hne hlo2 hhi2
  refine ⟨hval, by rw [hval]; linarith [hmean.2], by rw [hval]; linarith [hmean.1], ?_⟩
  intro hnn
  have hlo3 : ∀ x ∈ offDiagonal m, (0 : ℚ) ≤ x := by
    intro x hx
    rcases offDiagonal_mem m x hx with ⟨row, hrow, hxrow⟩
    exact hnn row hrow x hxrow
  have hmean2 := list_mean_bounds (offDiagonal m) 0 1 hne hlo3 hhi2
  rw [hval]
  linarith [hmean2.1]

/-- Witness for the amended C3 theorem on a concrete 2×2 matrix. -/
theorem calculate_rqe_bounds_witness :
    calculate_rqe [[("name", .str "A")], [("name", .str "B")]] [[1, 0], [0, 1]] = 1 := by
  have h := calculate_rqe_bounds [[("name", .str "A")], [("name", .str "B")]]
    [[1, 0], [0, 1]] 2 (by norm_num) (by norm_num) (by norm_num)
    (by intro row hrow; fin_cases hrow <;> norm_num)
    (by intro row hrow x hx; fin_cases hrow <;> fin_cases hx <;> norm_num)
    (by intro row hrow x hx; fin_cases hrow <;> fin_cases hx <;> norm_num)
  rw [h.1]
  norm_num [offDiagonal, List.enum, List.enumFrom, List.filterMap]

/-! ### The iterative generation loop

`generate_persona_set_iterative` (src/backend/app/services/
iterative_generation_service.py, lines 134-229).  The LLM generator and the
embedding backend are opaque, so the RQE score and persona count of each
iteration are parameters (`rqeOf i`, `numOf i` for iteration `i`).  The
`while current_iteration < max_iterations` loop is modelled with a fuel
argument that maintains `fuel = max_iterations - current_iteration`; the
wall-clock `timestamp` field of each record is not modelled. -/

/-- One entry of `iteration_history` (lines 175-183). -/
structure IterationRecord where
  iteration : ℕ
  rqe_score : ℚ
  threshold : ℚ
  threshold_met : Bool
  num_personas : ℕ
  diversity_hints_used : Bool
  deriving DecidableEq

/-- The parts of the final metrics the claims are about (lines 204-227). -/
structure GenerationOutcome where
  iteration_history : List IterationRecord
  threshold_met : Bool
  iterations_used : ℕ
  deriving DecidableEq

/-- The loop body, lines 134-202: increment the counter, record the attempt
(fields of lines 175-183 in order; `threshold_met := rqe >= threshold`),
break when the threshold is met (line 187) or `auto_iterate` is off
(line 193), else regenerate with diversity hints (lines 198-202).  The
`hints` flag tracks whether `diversity_hints` is not `None`. -/
def generation_loop (rqeOf : ℕ → ℚ) (numOf : ℕ → ℕ) (rqe_threshold : ℚ)
    (max_iterations : ℕ) (auto_iterate : Bool) :
    ℕ → ℕ → List IterationRecord → Bool → GenerationOutcome
  | 0, cur, hist, _ => ⟨hist, false, cur⟩
  | fuel + 1, cur, hist, hints =>
    if rqe_threshold ≤ rqeOf (cur + 1) then
      ⟨hist ++ [⟨cur + 1, rqeOf (cur + 1), rqe_threshold,
        decide (rqe_threshold ≤ rqeOf (cur + 1)), numOf (cur + 1), hints⟩], true, cur + 1⟩
    else if auto_iterate = false then
      ⟨hist ++ [⟨cur + 1, rqeOf (cur + 1), rqe_threshold,
        decide (rqe_threshold ≤ rqeOf (cur + 1)), numOf (cur + 1), hints⟩], false, cur + 1⟩
    else
      generation_loop rqeOf numOf rqe_threshold max_iterations auto_iterate fuel (cur + 1)
        (hist ++ [⟨cur + 1, rqeOf (cur + 1), rqe_threshold,
          decide (rqe_threshold ≤ rqeOf (cur + 1)), numOf (cur + 1), hints⟩])
        (if cur + 1 < max_iterations then true else hints)

/-- `generate_persona_set_iterative` restricted to the iteration logic: run
the loop from iteration 0 with empty history and no hints. -/
def generate_persona_set_iterative (rqeOf : ℕ → ℚ) (numOf : ℕ → ℕ)
    (rqe_threshold : ℚ) (max_iterations : ℕ) (auto_iterate : Bool) : GenerationOutcome :=
  generation_loop rqeOf numOf rqe_threshold max_iterations auto_iterate
    max_iterations 0 [] false

theorem generation_loop_length (rqeOf : ℕ → ℚ) (numOf : ℕ → ℕ) (th : ℚ)
    (maxI : ℕ) (auto : Bool) :
    ∀ fuel cur hist hints,
      (generation_loop rqeOf numOf th maxI auto fuel cur hist hints).iteration_history.length
        ≤ hist.length + fuel := by
  intro fuel
  induction fuel with
  | zero => intro cur hist hints; simp [generation_loop]
  | succ n ih =>
    intro cur hist hints
    rw [generation_loop]
    by_cases h1 : th ≤ rqeOf (cur + 1)
    · rw [if_pos h1]
      simp
    · rw [if_neg h1]
      by_cases h2 : auto = false
      · rw [if_pos h2]
        simp
      · rw [if_neg h2]
        refine le_trans (ih (cur + 1)
          (hist ++ [⟨cur + 1, rqeOf (cur + 1), th, decide (th ≤ rqeOf (cur + 1)),
            numOf (cur + 1), hints⟩])
          (if cur + 1 < maxI then true else hints)) ?_
        simp
        omega

/-- Records only accumulate: any property of every appended record is a
property of every history entry of the result. -/
theorem generation_loop_forall (rqeOf : ℕ → ℚ) (numOf : ℕ → ℕ) (th : ℚ)
    (maxI : ℕ) (auto : Bool) (P : IterationRecord → Prop)
    (hP : ∀ i hints, P ⟨i, rqeOf i, th, decide (th ≤ rqeOf i), numOf i, hints⟩) :
    ∀ fuel cur hist hints, (∀ a ∈ hist, P a) →
      ∀ a ∈ (generation_loop rqeOf numOf th maxI auto fuel cur hist hints).iteration_history,
        P a := by
  intro fuel
  induction fuel with
  | zero => intro cur hist hints hh; simpa [generation_loop] using hh
  | succ n ih =>
    intro cur hist hints hh
    have hh2 : ∀ a ∈ hist ++
        [(⟨cur + 1, rqeOf (cur + 1), th, decide (th ≤ rqeOf (cur + 1)), numOf (cur + 1),
          hints⟩ : IterationRecord)], P a := by
      intro a ha
      rcases List.mem_append.mp ha with ha | ha
      · exact hh a ha
      · rcases List.mem_singleton.mp ha with rfl
        exact hP (cur + 1) hints
    rw [generation_loop]
    by_cases h1 : th ≤ rqeOf (cur + 1)
    · rw [if_pos h1]
      exact hh2
    · rw [if_neg h1]
      by_cases h2 : auto = false
      · rw [if_pos h2]
        exact hh2
      · rw [if_neg h2]
        exact ih (cur + 1) _ _ hh2

/-- C7: a run records at most `max_iterations` history entries; in
particular with `max_iterations = 3`, `rqe_threshold = 0.75`,
`auto_iterate = true` and a generator always scoring `0.5`, the run ends
with exactly 3 history entries, all (including the final one) with
`threshold_met = false`, and final metrics `threshold_met = false`. -/
theorem iteration_bound_and_scenario :
    (∀ (rqeOf : ℕ → ℚ) (numOf : ℕ → ℕ) (th : ℚ) (maxI : ℕ) (auto : Bool),
      (generate_persona_set_iterative rqeOf numOf th maxI auto).iteration_history.length
        ≤ maxI) ∧
    ((generate_persona_set_iterative (fun _ => 1/2) (fun _ => 5) (3/4) 3
        true).iteration_history.map IterationRecord.threshold_met = [false, false, false] ∧
      (generate_persona_set_iterative (fun _ => 1/2) (fun _ => 5) (3/4) 3
        true).iteration_history.length = 3 ∧
      (generate_persona_set_iterative (fun _ => 1/2) (fun _ => 5) (3/4) 3
        true).threshold_met = false) := by
  constructor
  · intro rqeOf numOf th maxI auto
    simpa using generation_loop_length rqeOf numOf th maxI auto maxI 0 [] false
  · norm_num [generate_persona_set_iterative, generation_loop]

/-- C8: every record appended to the iteration history carries the run
threshold and has `threshold_met` true exactly when its `rqe_score` reaches
that threshold, for all scores and thresholds. -/
theorem threshold_met_iff_in_history (rqeOf : ℕ → ℚ) (numOf : ℕ → ℕ) (th : ℚ)
    (maxI : ℕ) (auto : Bool) :
    ∀ a ∈ (generate_persona_set_iterative rqeOf numOf th maxI auto).iteration_history,
      a.threshold = th ∧ (a.threshold_met = true ↔ th ≤ a.rqe_score) := by
  apply generation_loop_forall rqeOf numOf th maxI auto
    (fun a => a.threshold = th ∧ (a.threshold_met = true ↔ th ≤ a.rqe_score))
  · intro i hints
    exact ⟨rfl, by simp⟩
  · intro a ha
    simp at ha

/-- Witness for C8 on a concrete one-iteration run with threshold 2 and
score 1. -/
theorem threshold_met_iff_witness :
    (⟨1, 1, 2, false, 1, false⟩ : IterationRecord).threshold = 2 ∧
    ((⟨1, 1, 2, false, 1, false⟩ : IterationRecord).threshold_met = true ↔
      (2 : ℚ) ≤ (⟨1, 1, 2, false, 1, false⟩ : IterationRecord).rqe_score) := by
  apply threshold_met_iff_in_history (fun _ => 1) (fun _ => 1) 2 1 true
  norm_num [generate_persona_set_iterative, generation_loop]

/-! ### Candidate extraction

`_generate_personas`, lines 344-349: the LLM response is opaque, so the
extraction tail is embedded as a function of the response dict. -/

/-- Lines 344-349: `personas_data = persona_set_data.get("personas", [])`;
a non-list value is wrapped in a one-element list when truthy and replaced
by the empty list otherwise; non-dict elements are filtered out. -/
def generate_personas_extract (persona_set_data : List (String × JSON)) : List JSON :=
  let personasData := getJD persona_set_data "personas" (.arr [])
  let asList :=
    match personasData with
    | .arr xs => xs
    | v => if truthy v then [v] else []
  asList.filter isObj

/-- C10: the extraction step only ever returns dict candidates; a non-list
`"personas"` value is coerced to a one-element list when truthy and to the
empty list when falsy (then filtered to dicts), and an absent key yields the
empty list. -/
theorem generate_personas_extract_spec (persona_set_data : List (String × JSON)) :
    (∀ j ∈ generate_personas_extract persona_set_data, isObj j = true) ∧
    (∀ v, getEntry persona_set_data "personas" = some v → isArr v = false →
      generate_personas_extract persona_set_data
        = (if truthy v = true then [v] else []).filter isObj) ∧
    (getEntry persona_set_data "personas" = none →
      generate_personas_extract persona_set_data = []) := by
  refine ⟨?_, ?_, ?_⟩
  · intro j hj
    unfold generate_personas_extract at hj
    exact (List.mem_filter.mp hj).2
  · intro v hv hnarr
    unfold generate_personas_extract getJD
    rw [hv]
    cases v <;> simp_all [isArr]
  · intro hnone
    unfold generate_personas_extract getJD
    rw [hnone]
    simp

/-- Witness for C10: a numeric `"personas"` value is truthy, wrapped, and
then filtered away, leaving no candidates. -/
theorem generate_personas_extract_witness :
    generate_personas_extract [("personas", .int 5)]
      = (if truthy (.int 5) = true then [JSON.int 5] else []).filter isObj :=
  (generate_personas_extract_spec [("personas", .int 5)]).2.1 (.int 5) rfl rfl

/-! ### The strict expansion merge

`strict_deep_merge` inside `expand_persona`
(src/backend/app/services/persona_service.py, lines 282-368). -/

/-- Lines 283-287: fields that must never be changed by expansion. -/
def DEMOGRAPHIC_FIELDS : List String :=
  ["name", "age", "gender", "nationality", "education_level", "income_bracket",
   "relationship_status", "occupation", "location", "persona_id", "tagline",
   "social_media_usage", "role"]

/-- Lines 289-297: fields that may be expanded. -/
def EXPANDABLE_FIELDS : List String :=
  ["behaviors", "goals", "motivations", "frustrations", "pain_points", "quotes",
   "quote", "other_information", "background", "personal_history",
   "detailed_description", "technology_profile", "interaction_preferences",
   "technology_usage", "digital_literacy", "behaviors_and_preferences",
   "goals_and_motivations", "pain_points_and_frustrations",
   "background_and_personal_history", "technology_usage_and_digital_literacy",
   "needs_and_interaction_with_product_service", "interaction_with_product_service"]

/-- Line 357: `value is None or value == ""` (the negation of the guard for
overwriting a behavioral field). -/
def isNullOrEmptyStr : JSON → Bool
  | .null => true
  | .str s => s == ""
  | _ => false

mutual

/-- `strict_deep_merge(original, expanded)`, lines 305-365: the result has
exactly the keys of `original` (`result = original.copy()` is updated only
at existing keys), each entry merged as follows (lines 318-363): an absent
expanded key keeps the original (319-322); demographic fields are preserved
(326-331); a dict-valued `demographics` is preserved whole (333-338); a
nested `demographics` never replaces a flat one (`continue`, 340-345);
expandable fields are merged by `mergeExpandable` (347-358); all other
fields keep the original (359-363). -/
def strict_deep_merge : List (String × JSON) → List (String × JSON) → List (String × JSON)
  | [], _ => []
  | (k, ov) :: rest, expanded =>
    (k, match getEntry expanded k with
        | none => ov
        | some v =>
          if k ∈ DEMOGRAPHIC_FIELDS then ov
          else if k = "demographics" ∧ isObj ov = true then ov
          else if k = "demographics" ∧ isObj ov = false ∧ isObj v = true then ov
          else if k ∈ EXPANDABLE_FIELDS then mergeExpandable ov v
          else ov) :: strict_deep_merge rest expanded

/-- Lines 348-358: expandable fields deep-merge dict values, keep the longer
of two lists, and otherwise take the expanded value when it is neither
`None` nor the empty string. -/
def mergeExpandable : JSON → JSON → JSON
  | .obj o2, .obj e2 => .obj (strict_deep_merge o2 e2)
  | .arr xs, .arr ys => if xs.length < ys.length then .arr ys else .arr xs
  | ov, v => if isNullOrEmptyStr v then ov else v

end

/-- The value stored by `strict_deep_merge` for one original entry
`(k, ov)`, as a standalone function (definitionally the head value of the
`cons` case above). -/
def mergeValue (k : String) (ov : JSON) (expanded : List (String × JSON)) : JSON :=
  match getEntry expanded k with
  | none => ov
  | some v =>
    if k ∈ DEMOGRAPHIC_FIELDS then ov
    else if k = "demographics" ∧ isObj ov = true then ov
    else if k = "demographics" ∧ isObj ov = false ∧ isObj v = true then ov
    else if k ∈ EXPANDABLE_FIELDS then mergeExpandable ov v
    else ov

@[simp] theorem strict_deep_merge_nil (e : List (String × JSON)) :
    strict_deep_merge [] e = [] := rfl

@[simp] theorem strict_deep_merge_cons (k : String) (ov : JSON)
    (rest e : List (String × JSON)) :
    strict_deep_merge ((k, ov) :: rest) e
      = (k, mergeValue k ov e) :: strict_deep_merge rest e := rfl

/-- Python `dict.pop(key)` restricted to its effect on the entry list. -/
def popKey : List (String × JSON) → String → List (String × JSON)
  | [], _ => []
  | (k2, v) :: rest, k => if k2 = k then rest else (k2, v) :: popKey rest k

/-- The merge-and-restructure tail of `expand_persona`, lines 299-386:
normalize both sides, strictly merge them, and when the original stored
persona used a flat demographic layout (`age`, `gender`, `occupation`
present and no `demographics` key, lines 370-374) remove a dict-valued
`demographics` key from the merged result (lines 376-383).  The result is
assigned to `persona.persona_data` (line 386). -/
def expand_persona_merge (persona_data expanded_data : List (String × JSON)) :
    List (String × JSON) :=
  let original_normalized := normalize_persona_to_nested persona_data
  let expanded_normalized := normalize_persona_to_nested expanded_data
  let merged_data := strict_deep_merge original_normalized expanded_normalized
  let original_has_flat_demographics :=
    hasKey persona_data "age" && hasKey persona_data "gender" &&
    hasKey persona_data "occupation" && !(hasKey persona_data "demographics")
  if original_has_flat_demographics && hasKey merged_data "demographics" then
    match getEntry merged_data "demographics" with
    | some (.obj _) => popKey merged_data "demographics"
    | _ => merged_data
  else merged_data

mutual

/-- All dict keys occurring anywhere in a JSON value. -/
def allKeysVal : JSON → List String
  | .obj kvs => allKeysEntries kvs
  | .arr xs => allKeysList xs
  | _ => []

/-- All dict keys occurring anywhere in a list of JSON values. -/
def allKeysList : List JSON → List String
  | [] => []
  | x :: xs => allKeysVal x ++ allKeysList xs

/-- All dict keys occurring anywhere in an entry list, at any nesting
level. -/
def allKeysEntries : List (String × JSON) → List String
  | [] => []
  | (k, v) :: rest => k :: (allKeysVal v ++ allKeysEntries rest)

end

/-- C6 counterexample: merging the normalizations of
`{"background": "hello"}` (original) and
`{"background": {"extra_notes": "stuff"}}` (enrichment output) replaces the
string-valued expandable field `background` by a dict, introducing the
nested key `extra_notes` which occurs nowhere in the original persona. -/
theorem strict_deep_merge_new_nested_key :
    "extra_notes" ∈ allKeysEntries (strict_deep_merge
        (normalize_persona_to_nested [("background", .str "hello")])
        (normalize_persona_to_nested [("background", .obj [("extra_notes", .str "stuff")])])) ∧
    "extra_notes" ∉ allKeysEntries (normalize_persona_to_nested [("background", .str "hello")]) := by
  decide

/-- Demographic fields (and the `demographics` key itself) always keep the
original value. -/
theorem mergeValue_demographic (k : String) (ov : JSON) (e : List (String × JSON))
    (h : k ∈ DEMOGRAPHIC_FIELDS ∨ k = "demographics") : mergeValue k ov e = ov := by
  unfold mergeValue
  cases getEntry e k with
  | none => rfl
  | some v =>
    rcases h with h | h
    · simp [h]
    · subst h
      have hd : ("demographics" ∈ DEMOGRAPHIC_FIELDS) = False := by
        simp [DEMOGRAPHIC_FIELDS]
      have he : ("demographics" ∈ EXPANDABLE_FIELDS) = False := by
        simp [EXPANDABLE_FIELDS]
      by_cases ho : isObj ov = true
      · simp [hd, ho]
      · by_cases hv : isObj v = true
        · simp [hd, he, ho, hv]
        · simp [hd, he, ho, hv]

/-- A list-valued original field is never replaced by a shorter list. -/
theorem mergeValue_arr (k : String) (xs : List JSON) (e : List (String × JSON))
    (ys : List JSON) (h : mergeValue k (.arr xs) e = .arr ys) : xs.length ≤ ys.length := by
  unfold mergeValue at h
  split at h
  · cases h; exact le_refl _
  · rename_i v heq
    split at h
    · cases h; exact le_refl _
    · split at h
      · cases h; exact le_refl _
      · split at h
        · cases h; exact le_refl _
        · split at h
          · cases v with
            | arr zs =>
              rw [mergeExpandable] at h
              by_cases h5 : xs.length < zs.length
              · rw [if_pos h5] at h
                cases h
                omega
              · rw [if_neg h5] at h
                cases h
                exact le_refl _
            | null => simp [mergeExpandable, isNullOrEmptyStr] at h; cases h; exact le_refl _
            | bool b => simp [mergeExpandable, isNullOrEmptyStr] at h
            | int n => simp [mergeExpandable, isNullOrEmptyStr] at h
            | str t =>
              by_cases h6 : t = ""
              · simp [mergeExpandable, isNullOrEmptyStr, h6] at h; cases h; exact le_refl _
              · simp [mergeExpandable, isNullOrEmptyStr, h6] at h
            | obj kvs => simp [mergeExpandable, isNullOrEmptyStr] at h
          · cases h; exact le_refl _

/-- C6 (amended): the strict merge never adds or removes a top-level key
(so at every level reached by dict-with-dict recursive merging, the key set
is exactly the original one); demographic fields — the thirteen protected
names and the `demographics` object itself — always keep the original
value; and a list-valued field is never replaced by a shorter list.  (An
expandable field whose original value is not a dict can still be replaced
wholesale by a dict from the enrichment output, which is what the
counterexample exhibits at nested levels.) -/
theorem strict_deep_merge_closure (o e : List (String × JSON)) :
    (strict_deep_merge o e).map Prod.fst = o.map Prod.fst ∧
    (∀ k, k ∈ DEMOGRAPHIC_FIELDS ∨ k = "demographics" →
      getEntry (strict_deep_merge o e) k = getEntry o k) ∧
    (∀ k xs ys, getEntry o k = some (.arr xs) →
      getEntry (strict_deep_merge o e) k = some (.arr ys) → xs.length ≤ ys.length) := by
  refine ⟨?_, ?_, ?_⟩
  · induction o with
    | nil => rfl
    | cons p rest ih =>
      obtain ⟨k2, ov⟩ := p
      simp [ih]
  · intro k hk
    induction o with
    | nil => rfl
    | cons p rest ih =>
      obtain ⟨k2, ov⟩ := p
      rw [strict_deep_merge_cons]
      by_cases hke : k2 = k
      · simp only [getEntry_cons, hke, if_pos]
        subst hke
        rw [mergeValue_demographic k2 ov e hk]
      · simp only [getEntry_cons, hke, if_neg, if_false]
        exact ih
  · intro k xs ys hxs hys
    induction o with
    | nil => simp at hxs
    | cons p rest ih =>
      obtain ⟨k2, ov⟩ := p
      rw [strict_deep_merge_cons] at hys
      by_cases hke : k2 = k
      · rw [getEntry_cons, if_pos hke] at hxs hys
        cases hxs
        rw [Option.some_inj] at hys
        exact mergeValue_arr k2 xs e ys (by rw [← hys])
      · rw [getEntry_cons, if_neg hke] at hxs hys
        exact ih hxs hys

/-- Witness for the amended C6 theorem: the demographic field `age` keeps
its original value on a concrete merge. -/
theorem strict_deep_merge_closure_witness :
    getEntry (strict_deep_merge [("age", .int 30)] [("age", .int 99)]) "age"
      = getEntry [("age", .int 30)] "age" :=
  (strict_deep_merge_closure [("age", .int 30)] [("age", .int 99)]).2.1 "age"
    (Or.inl (by decide))

/-- C2 (code bug): for the stored flat-layout persona
`{"name": "Bob", "age": 30, "gender": "male", "occupation": "chef"}` and an
enrichment output that wraps demographics in a nested object, the final
restructuring of `expand_persona` pops the nested `demographics` dict
without restoring the flat fields (the normalization step had already moved
`age`/`gender`/`occupation` into that dict), so the stored result contains
no demographic data at all — neither nested nor flat — although the code
comments and log messages at lines 340-345 and 376-383 say the original
flat structure is preserved. -/
theorem expand_persona_flat_demographics_lost :
    getEntry (expand_persona_merge
      [("name", .str "Bob"), ("age", .int 30), ("gender", .str "male"),
       ("occupation", .str "chef")]
      [("name", .str "Bob"),
       ("demographics", .obj [("age", .int 30), ("gender", .str "male"),
         ("occupation", .str "chef")]),
       ("background", .str "Bob has cooked for a decade.")]) "demographics" = none ∧
    getEntry (expand_persona_merge
      [("name", .str "Bob"), ("age", .int 30), ("gender", .str "male"),
       ("occupation", .str "chef")]
      [("name", .str "Bob"),
       ("demographics", .obj [("age", .int 30), ("gender", .str "male"),
         ("occupation", .str "chef")]),
       ("background", .str "Bob has cooked for a decade.")]) "age" = none ∧
    getEntry (expand_persona_merge
      [("name", .str "Bob"), ("age", .int 30), ("gender", .str "male"),
       ("occupation", .str "chef")]
      [("name", .str "Bob"),
       ("demographics", .obj [("age", .int 30), ("gender", .str "male"),
         ("occupation", .str "chef")]),
       ("background", .str "Bob has cooked for a decade.")]) "gender" = none ∧
    getEntry (expand_persona_merge
      [("name", .str "Bob"), ("age", .int 30), ("gender", .str "male"),
       ("occupation", .str "chef")]
      [("name", .str "Bob"),
       ("demographics", .obj [("age", .int 30), ("gender", .str "male"),
         ("occupation", .str "chef")]),
       ("background", .str "Bob has cooked for a decade.")]) "occupation" = none ∧
    getEntry [("name", JSON.str "Bob"), ("age", JSON.int 30), ("gender", JSON.str "male"),
      ("occupation", JSON.str "chef")] "age" = some (.int 30) := by
  refine ⟨rfl, rfl, rfl, rfl, rfl⟩

/-! ### The attribute validator

`validate_persona_attributes` (src/backend/app/services/analytics_service.py,
lines 282-412).  The Retrieval Gateway is an opaque function from the query
text to the first row of distances and documents that the vector store
returns.  Python `round(x, 3)` is modelled as exact decimal rounding
half-to-even. -/

/-- The first row of `query_results["distances"]` / `["documents"]`. -/
structure RetrievalResult where
  distances : List ℚ
  documents : List String

/-- One value of the `attribute_validation` report (lines 373-379). -/
structure AttrVal where
  similarity : ℚ
  max_similarity : ℚ
  validated : Bool
  threshold : ℚ
  source_chunks : List String
  deriving DecidableEq

/-- Lines 316-324. -/
def validatable_attributes : List String :=
  ["background", "goals", "frustrations", "motivations", "behaviors", "quote", "quotes"]

mutual

/-- Python `repr` of a JSON-like value (how `str` renders values nested in
containers). -/
def pyRepr : JSON → String
  | .null => "None"
  | .bool b => if b then "True" else "False"
  | .int n => toString n
  | .str s => "\x27" ++ s ++ "\x27"
  | .arr xs => "[" ++ pyReprList xs ++ "]"
  | .obj kvs => "\x7b" ++ pyReprObj kvs ++ "\x7d"

/-- Comma-separated reprs of list elements. -/
def pyReprList : List JSON → String
  | [] => ""
  | [x] => pyRepr x
  | x :: xs => pyRepr x ++ ", " ++ pyReprList xs

/-- Comma-separated reprs of dict entries. -/
def pyReprObj : List (String × JSON) → String
  | [] => ""
  | [(k, v)] => "\x27" ++ k ++ "\x27: " ++ pyRepr v
  | (k, v) :: rest => "\x27" ++ k ++ "\x27: " ++ pyRepr v ++ ", " ++ pyReprObj rest

end

/-- Python `str` of a JSON-like value. -/
def pyStr : JSON → String
  | .null => "None"
  | .bool b => if b then "True" else "False"
  | .int n => toString n
  | .str s => s
  | .arr xs => pyRepr (.arr xs)
  | .obj kvs => pyRepr (.obj kvs)

/-- Lines 336-339: list values are space-joined element strings, everything
else is `str(value)`. -/
def attrText : JSON → String
  | .arr xs => " ".intercalate (xs.map pyStr)
  | v => pyStr v

/-- Python `max(l)` on a non-empty list (`0` is never used: the code only
takes the max of a non-empty similarity list). -/
def listMaxQ : List ℚ → ℚ
  | [] => 0
  | x :: xs => xs.foldl max x

/-- Exact round-half-to-even to an integer. -/
def roundHalfEven (q : ℚ) : ℤ :=
  if q - (⌊q⌋ : ℚ) < 1/2 then ⌊q⌋
  else if 1/2 < q - (⌊q⌋ : ℚ) then ⌊q⌋ + 1
  else if ⌊q⌋ % 2 = 0 then ⌊q⌋ else ⌊q⌋ + 1

/-- Python `round(x, 3)`. -/
def round3 (q : ℚ) : ℚ := (roundHalfEven (q * 1000) : ℚ) / 1000

/-- Lines 362-364: the mean of `max(0, 1 - d)` over the returned distances,
`0` when no chunks came back. -/
def meanSimilarity (query : String → RetrievalResult) (v : JSON) : ℚ :=
  let similarities := (query (attrText v)).distances.map (fun d => max (0 : ℚ) (1 - d))
  if similarities.isEmpty then 0 else similarities.sum / similarities.length

/-- Lines 330-379, for a single attribute name: `None` when the attribute is
skipped (absent, falsy, or blank text), otherwise the recorded
`attribute_validation` entry. -/
def attrResult (pdata : List (String × JSON)) (query : String → RetrievalResult)
    (cs_threshold : ℚ) (attr : String) : Option AttrVal :=
  match getEntry pdata attr with
  | none => none
  | some v =>
    if truthy v = false then none
    else if pyStrip (attrText v) = "" then none
    else
      let res := query (attrText v)
      let similarities := res.distances.map (fun d => max (0 : ℚ) (1 - d))
      let source_chunks := res.documents.take 3
      let avg := if similarities.isEmpty then 0 else similarities.sum / similarities.length
      let maxS := if similarities.isEmpty then 0 else listMaxQ similarities
      some { similarity := round3 avg, max_similarity := round3 maxS,
             validated := decide (cs_threshold ≤ avg), threshold := cs_threshold,
             source_chunks := source_chunks.take 2 }

/-- The contribution of one attribute to the report (one loop pass of lines
330-384). -/
def attrSeg (pdata : List (String × JSON)) (query : String → RetrievalResult)
    (cs_threshold : ℚ) (attr : String) : List (String × AttrVal) :=
  match attrResult pdata query cs_threshold attr with
  | none => []
  | some r => [(attr, r)]

/-- The `attribute_validation` report: one pass of the loop per validatable
attribute, in order. -/
def attribute_validation (pdata : List (String × JSON))
    (query : String → RetrievalResult) (cs_threshold : ℚ) : List (String × AttrVal) :=
  (validatable_attributes.map (attrSeg pdata query cs_threshold)).join

/-- Lines 381-384: attributes recorded with `validated = False`. -/
def flagged_attributes (pdata : List (String × JSON))
    (query : String → RetrievalResult) (cs_threshold : ℚ) : List String :=
  (attribute_validation pdata query cs_threshold).filterMap
    (fun p => if p.2.validated then none else some p.1)

/-- Lines 381-382: attributes recorded with `validated = True`. -/
def validated_attributes (pdata : List (String × JSON))
    (query : String → RetrievalResult) (cs_threshold : ℚ) : List String :=
  (attribute_validation pdata query cs_threshold).filterMap
    (fun p => if p.2.validated then some p.1 else none)

/-- Lookup in the report by attribute name. -/
def lookupAttr : List (String × AttrVal) → String → Option AttrVal
  | [], _ => none
  | (k, v) :: rest, key => if k = key then some v else lookupAttr rest key

example : round3 (1999999/2500000) = 4/5 := by norm_num [round3, roundHalfEven]

@[simp] theorem lookupAttr_nil (k : String) : lookupAttr [] k = none := rfl

@[simp] theorem lookupAttr_cons (k2 : String) (v : AttrVal) (rest : List (String × AttrVal))
    (k : String) : lookupAttr ((k2, v) :: rest) k = if k2 = k then some v else lookupAttr rest k :=
  rfl

@[simp] theorem lookupAttr_append (l1 l2 : List (String × AttrVal)) (k : String) :
    lookupAttr (l1 ++ l2) k = oor (lookupAttr l1 k) (lookupAttr l2 k) := by
  induction l1 with
  | nil => simp
  | cons e rest ih =>
    obtain ⟨k2, v⟩ := e
    by_cases h : k2 = k <;> simp [h, ih]

@[simp] theorem lookupAttr_attrSeg_self (pdata : List (String × JSON))
    (query : String → RetrievalResult) (th : ℚ) (a : String) :
    lookupAttr (attrSeg pdata query th a) a = attrResult pdata query th a := by
  unfold attrSeg
  cases attrResult pdata query th a <;> simp

@[simp] theorem lookupAttr_attrSeg_ne (pdata : List (String × JSON))
    (query : String → RetrievalResult) (th : ℚ) (a k : String) (h : ¬ a = k) :
    lookupAttr (attrSeg pdata query th a) k = none := by
  unfold attrSeg
  cases attrResult pdata query th a <;> simp [h]

/-- The report lookup for a validatable attribute is exactly its per-attribute
result. -/
theorem lookupAttr_attribute_validation (pdata : List (String × JSON))
    (query : String → RetrievalResult) (th : ℚ) (attr : String)
    (h : attr ∈ validatable_attributes) :
    lookupAttr (attribute_validation pdata query th) attr = attrResult pdata query th attr := by
  fin_cases h <;> simp [attribute_validation, validatable_attributes]

/-- Membership of a segment. -/
@[simp] theorem mem_attrSeg_iff (pdata : List (String × JSON))
    (query : String → RetrievalResult) (th : ℚ) (c a : String) (b : AttrVal) :
    ((a, b) ∈ attrSeg pdata query th c) ↔
      (a = c ∧ attrResult pdata query th c = some b) := by
  unfold attrSeg
  cases hr : attrResult pdata query th c <;> simp
  intro h
  exact eq_comm

/-- An attribute is in `flagged_attributes` exactly when it was recorded
with `validated = False`. -/
theorem mem_flagged_iff (pdata : List (String × JSON))
    (query : String → RetrievalResult) (th : ℚ) (attr : String)
    (h : attr ∈ validatable_attributes) :
    attr ∈ flagged_attributes pdata query th ↔
      ∃ r, attrResult pdata query th attr = some r ∧ r.validated = false := by
  fin_cases h <;>
    · simp [flagged_attributes, attribute_validation, validatable_attributes,
        List.filterMap_append, and_comm]
      aesop

/-- C5 (amended): every recorded `attribute_validation` entry carries the run
threshold, its `validated` flag equals `mean similarity >= cs_threshold`
computed on the pre-rounding mean, and its stored `similarity` is that mean
rounded to 3 decimals (so `validated` can disagree with a comparison against
the stored value).  An attribute whose retrieval returns zero chunks has
mean similarity 0, stored similarity 0, and — whenever `cs_threshold > 0` —
is flagged; in every case the attribute is recorded and flagged exactly when
not validated, never omitted. -/
theorem attribute_validation_spec (pdata : List (String × JSON))
    (query : String → RetrievalResult) (th : ℚ) (attr : String) (v : JSON)
    (h1 : attr ∈ validatable_attributes)
    (h2 : getEntry pdata attr = some v)
    (h3 : truthy v = true)
    (h4 : ¬ pyStrip (attrText v) = "") :
    ∃ entry : AttrVal,
      lookupAttr (attribute_validation pdata query th) attr = some entry ∧
      entry.threshold = th ∧
      entry.validated = decide (th ≤ meanSimilarity query v) ∧
      entry.similarity = round3 (meanSimilarity query v) ∧
      ((query (attrText v)).distances = [] →
        meanSimilarity query v = 0 ∧ entry.similarity = 0 ∧
        (0 < th → entry.validated = false ∧ attr ∈ flagged_attributes pdata query th)) ∧
      (attr ∈ flagged_attributes pdata query th ↔ entry.validated = false) := by
  have hres : attrResult pdata query th attr
      = some ⟨round3 (meanSimilarity query v),
          round3
            (if ((query (attrText v)).distances.map (fun d => max (0 : ℚ) (1 - d))).isEmpty
              then 0
              else listMaxQ ((query (attrText v)).distances.map (fun d => max (0 : ℚ) (1 - d)))),
          decide (th ≤ meanSimilarity query v), th,
          ((query (attrText v)).documents.take 3).take 2⟩ := by
    unfold attrResult meanSimilarity
    rw [h2]
    simp [h3, h4]
  refine ⟨⟨round3 (meanSimilarity query v),
      round3
        (if ((query (attrText v)).distances.map (fun d => max (0 : ℚ) (1 - d))).isEmpty
          then 0
          else listMaxQ ((query (attrText v)).distances.map (fun d => max (0 : ℚ) (1 - d)))),
      decide (th ≤ meanSimilarity query v), th,
      ((query (attrText v)).documents.take 3).take 2⟩, ?_, rfl, rfl, rfl, ?_, ?_⟩
  · rw [lookupAttr_attribute_validation pdata query th attr h1, hres]
  · intro hd
    have hm : meanSimilarity query v = 0 := by
      simp [meanSimilarity, hd]
    refine ⟨hm, ?_, ?_⟩
    · show round3 (meanSimilarity query v) = 0
      rw [hm]
      norm_num [round3, roundHalfEven]
    · intro hth
      have hval : decide (th ≤ meanSimilarity query v) = false := by
        rw [hm]
        simp
        linarith
      refine ⟨hval, ?_⟩
      rw [mem_flagged_iff pdata query th attr h1]
      exact ⟨_, hres, hval⟩
  · rw [mem_flagged_iff pdata query th attr h1]
    constructor
    · rintro ⟨r, hr, hv⟩
      rw [hres] at hr
      rw [Option.some_inj] at hr
      rw [← hr] at hv
      exact hv
    · intro hv
      exact ⟨_, hres, hv⟩

/-- Witness for the amended C5 theorem: a present, non-blank `background`
attribute whose retrieval returns no chunks ends up flagged. -/
theorem attribute_validation_spec_witness :
    "background" ∈ flagged_attributes [("background", .str "some text")]
      (fun _ => ⟨[], []⟩) (4/5) := by
  obtain ⟨entry, hl, hth, hv, hs, hzero, hflag⟩ :=
    attribute_validation_spec [("background", .str "some text")] (fun _ => ⟨[], []⟩) (4/5)
      "background" (.str "some text") (by decide) rfl rfl (by decide)
  exact ((hzero rfl).2.2 (by norm_num)).2

/-- C5 counterexample: with `cs_threshold = 0.8` and one retrieved chunk at
distance `0.2000004`, the pre-rounding mean similarity is `0.7999996`, so
`validated = False`, while the recorded `similarity` field is rounded to
`0.8`; the recorded entry therefore violates
`validated == (similarity >= cs_threshold)` read on the stored field. -/
theorem validated_disagrees_with_stored_similarity :
    lookupAttr (attribute_validation [("background", .str "grounded claim text")]
        (fun _ => ⟨[500001/2500000], ["chunk one"]⟩) (4/5)) "background"
      = some ⟨4/5, 4/5, false, 4/5, ["chunk one"]⟩ ∧
    ((4 : ℚ)/5 ≤ 4/5) := by
  constructor
  · rw [lookupAttr_attribute_validation _ _ _ _ (by decide)]
    have h1 : getEntry [("background", JSON.str "grounded claim text")] "background"
        = some (.str "grounded claim text") := rfl
    have h2 : attrText (JSON.str "grounded claim text") = "grounded claim text" := rfl
    have h3 : pyStrip "grounded claim text" = "grounded claim text" := rfl
    unfold attrResult
    rw [h1]
    simp only [truthy, h2, h3]
    norm_num [round3, roundHalfEven, listMaxQ, max_def]
    exact ⟨by decide, fun h => absurd h (by decide)⟩
  · norm_num
